import Mathlib

/-!
Verification of the Flask backend in `app.py` of the Generative-AI-Storyteller
repository.  The single action route `POST /generate_story` is embedded as a
pure Lean function over

* a `ServerConfig` (the process-wide `google_api_key` and whether the
  `genai.GenerativeModel` handle was initialized at startup),
* a request body (JSON values modelled by `PyJson`, plus the case where
  `request.get_json()` itself raises),
* and a remote-service oracle `RemoteService` mapping the full prompt and the
  generation configuration to either a response or a raised exception.

The route function is instrumented: its result records the list of remote
invocations performed, so that "the remote service is never called" is a
statement about the result.
-/

/-- A Python exception as observed by the handler: `str(e)`, `str(type(e))`,
and the optional `e.message` attribute that some Google API errors carry. -/
structure PyExn where
  strVal : String
  typeName : String
  message : Option String
deriving DecidableEq, Repr

/-- A JSON value as produced by `request.get_json()` (Python objects:
`None`, `bool`, `int`, `str`, `list`, `dict`). -/
inductive PyJson where
  | null : PyJson
  | bool (b : Bool) : PyJson
  | num (n : Int) : PyJson
  | str (s : String) : PyJson
  | arr (elems : List PyJson) : PyJson
  | obj (fields : List (String × PyJson)) : PyJson

/-- The request body as seen by the handler: either `request.get_json()`
raises (body is not JSON, or an unsupported content type), or it yields a
JSON value. -/
inductive ReqBody where
  | malformed (e : PyExn) : ReqBody
  | json (j : PyJson) : ReqBody

/-- Python truthiness of a JSON value (`if not user_prompt:`). -/
def pyTruthy : PyJson → Bool
  | .null => false
  | .bool b => b
  | .num n => n != 0
  | .str s => s != ""
  | .arr l => !l.isEmpty
  | .obj l => !l.isEmpty

/-- The Python type name of a JSON value, as it appears in error messages. -/
def pyTypeName : PyJson → String
  | .null => "NoneType"
  | .bool _ => "bool"
  | .num _ => "int"
  | .str _ => "str"
  | .arr _ => "list"
  | .obj _ => "dict"

/-- The `AttributeError` raised by `data.get('prompt')` when `data` is not a
dict (e.g. the body was a JSON array, number, string, or `null`). -/
def attrErrorGet (j : PyJson) : PyExn :=
  { strVal := String.append (String.append "'" (pyTypeName j))
      "' object has no attribute 'get'"
    typeName := "<class 'AttributeError'>"
    message := none }

/-- The `TypeError` raised by `len(user_prompt)` on a value with no length. -/
def typeErrorLen (j : PyJson) : PyExn :=
  { strVal := String.append (String.append "object of type '" (pyTypeName j))
      "' has no len()"
    typeName := "<class 'TypeError'>"
    message := none }

/-- `data.get('prompt')`: raises `AttributeError` unless `data` is a dict;
on a dict, returns the value under the key (last occurrence wins, as in
Python's JSON parsing) or `None`. -/
def pyGet (j : PyJson) (key : String) : Except PyExn (Option PyJson) :=
  match j with
  | .obj fields => .ok ((fields.reverse.find? (fun kv => kv.1 == key)).map (·.2))
  | _ => .error (attrErrorGet j)

/-- `len(user_prompt)`. -/
def pyLen : PyJson → Except PyExn Nat
  | .str s => .ok s.length
  | .arr l => .ok l.length
  | .obj l => .ok l.length
  | j => .error (typeErrorLen j)

/-- `repr(x)` for a JSON value, following Python's conventions (used for
elements nested inside a list/dict, where `str` falls back to `repr`). -/
def pyRepr : PyJson → String
  | .null => "None"
  | .bool b => if b then "True" else "False"
  | .num n => toString n
  | .str s => String.append "'" (String.append s "'")
  | .arr l => String.append "["
      (String.append (String.intercalate ", "
        (l.attach.map (fun x => pyRepr x.1))) "]")
  | .obj l => String.append "\x7b"
      (String.append (String.intercalate ", "
        (l.attach.map (fun kv => String.append "'"
          (String.append kv.1.1
            (String.append "': " (pyRepr kv.1.2)))))) "\x7d")
decreasing_by
  · have := List.sizeOf_lt_of_mem x.2
    simp only [PyJson.arr.sizeOf_spec]
    omega
  · have := List.sizeOf_lt_of_mem kv.2
    have h2 : sizeOf kv.1.2 < sizeOf kv.1 := by
      cases kv.1 with
      | mk a b => simp [Prod.mk.sizeOf_spec]
    simp only [PyJson.obj.sizeOf_spec]
    omega

/-- `str(x)` for a JSON value, as used by the f-string that builds the full
prompt.  For strings this is the string itself; other values print as their
`repr`. -/
def pyStr : PyJson → String
  | .str s => s
  | j => pyRepr j

/-- Python's `str.strip()`: drop whitespace from both ends. -/
def pyStrip (s : String) : String :=
  ⟨((s.data.dropWhile Char.isWhitespace).reverse.dropWhile
      Char.isWhitespace).reverse⟩

/-- `b` occurs as a substring of `a` (Python's `in` operator on strings). -/
def strContains (a b : String) : Bool :=
  (List.range (a.data.length + 1)).any
    (fun i => b.data.isPrefixOf (a.data.drop i))

/-- The fixed sampling configuration passed to `model.generate_content`.
`candidate_count` is not set by the code (line 76 is commented out); the
SDK default, which the code comment records, is 1. -/
structure GenerationConfig where
  candidate_count : Nat := 1
  max_output_tokens : Nat
  temperature : ℚ
  top_p : ℚ
  top_k : Nat
deriving DecidableEq, Repr

/-- The remote service's response: the list of candidate texts, and the
`prompt_feedback.block_reason` name when a truthy block reason is present. -/
structure GeminiResponse where
  candidates : List String
  block_reason : Option String
deriving DecidableEq, Repr

/-- `response.text`: the text of the first candidate (only read by the code
after checking that `response.candidates` is non-empty). -/
def GeminiResponse.text (r : GeminiResponse) : String :=
  r.candidates.headD ""

/-- The outcome of `model.generate_content`: a response, or a raised
exception. -/
inductive RemoteOutcome where
  | ok (r : GeminiResponse) : RemoteOutcome
  | raise (e : PyExn) : RemoteOutcome
deriving DecidableEq, Repr

/-- The remote service as an oracle: full prompt and generation
configuration in, outcome out. -/
def RemoteService : Type := String → GenerationConfig → RemoteOutcome

/-- Process-wide state established at startup: the `GOOGLE_API_KEY`
environment variable (`none` when unset or when `genai.configure` failed)
and whether the `GenerativeModel` handle was initialized (is not `None`). -/
structure ServerConfig where
  google_api_key : Option String
  model_initialized : Bool
deriving DecidableEq, Repr

/-- Truthiness of the `google_api_key` global (`if not google_api_key:`):
falsy when unset or the empty string. -/
def keyTruthy : Option String → Bool
  | none => false
  | some s => !s.isEmpty

/-- `MODEL_NAME` (line 33). -/
def MODEL_NAME : String := "gemini-1.5-flash-latest"

/-- The result of one call to the route: HTTP status, the JSON body as
key/value pairs, and the list of remote invocations performed. -/
structure RouteResult where
  status : Nat
  body : List (String × String)
  calls : List (String × GenerationConfig)
deriving DecidableEq, Repr

/-- The f-string of lines 68-71: the fixed instructional template wrapping
the user's prompt. -/
def full_prompt (p : String) : String :=
  String.append "You are a creative storyteller.\nUser's story starter: \""
    (String.append p
      "\"\nContinue this story, making it engaging and imaginative. Keep the continuation concise, around 150-200 words.\nStory continuation:")

/-- The `genai.types.GenerationConfig(...)` of lines 75-82. -/
def generation_config : GenerationConfig :=
  { max_output_tokens := 300
    temperature := 0.8
    top_p := 0.95
    top_k := 40 }

/-- The fixed fallback sentence of line 112. -/
def fallback_story : String :=
  "The AI couldn't come up with a story continuation this time. Try a different prompt!"

/-- Lines 121-123: `error_message` is the exception's `message` attribute
when it has one, else `str(e)`. -/
def errorMessageOf (e : PyExn) : String :=
  match e.message with
  | some m => m
  | none => e.strVal

/-- The condition of line 127: the authentication/permission indicator. -/
def authIndicator (e : PyExn) : Bool :=
  strContains (errorMessageOf e) "API key not valid" ||
    strContains e.typeName "PermissionDenied"

/-- The condition of line 130: the quota/resource-exhaustion indicator. -/
def quotaIndicator (e : PyExn) : Bool :=
  strContains (errorMessageOf e) "Quota" ||
    strContains e.typeName "ResourceExhausted"

/-- The condition of line 133: the invalid-request indicator. -/
def invalidIndicator (e : PyExn) : Bool :=
  strContains (errorMessageOf e) "Invalid" ||
    strContains e.typeName "BadRequest"

/-- Lines 121-135: derive `error_message` (the `message` attribute when
present, else `str(e)`) and classify the exception by substring inspection,
returning the status code and the `error_message` after the branch's
rewriting. -/
def classify_gemini_error (e : PyExn) : Nat × String :=
  let error_message := errorMessageOf e
  if authIndicator e then
    (401, "Authentication with Google AI service failed. Check your API key.")
  else if quotaIndicator e then
    (429, "Google AI service quota exceeded. Please check your usage or try again later.")
  else if invalidIndicator e then
    (400, String.append "Invalid request to Google AI service: " error_message)
  else
    (500, error_message)

/-- The inner `try` of lines 73-137: invoke the remote service and interpret
the outcome.  The performed invocation is recorded in `calls`. -/
def gemini_call (svc : RemoteService) (fp : String) : RouteResult :=
  match svc fp generation_config with
  | .raise e =>
      let (status_code, error_message) := classify_gemini_error e
      { status := status_code
        body := [("error", String.append
          "An error occurred with the Google AI service: " error_message)]
        calls := [(fp, generation_config)] }
  | .ok response =>
      if response.candidates.isEmpty then
        let block_reason_msg := match response.block_reason with
          | some br => String.append "Content generation blocked due to: " br
          | none => "Content generation blocked. The prompt might have violated safety guidelines or resulted in no valid output."
        { status := 400, body := [("error", block_reason_msg)]
          calls := [(fp, generation_config)] }
      else
        let story_continuation := pyStrip response.text
        let story_continuation :=
          if story_continuation = "" then fallback_story
          else story_continuation
        { status := 200, body := [("story", story_continuation)]
          calls := [(fp, generation_config)] }

/-- The outer `try` of lines 56-140: parse the body, read and validate the
prompt, then call the remote service.  A raised exception is returned as
`.error` for the outer `except` to handle. -/
def handler_try (req : ReqBody) (svc : RemoteService) :
    Except PyExn RouteResult :=
  match req with
  | .malformed e => .error e
  | .json data =>
    match pyGet data "prompt" with
    | .error e => .error e
    | .ok user_prompt =>
      match user_prompt with
      | none => .ok { status := 400, body := [("error", "Prompt is missing")], calls := [] }
      | some p =>
        if !pyTruthy p then
          .ok { status := 400, body := [("error", "Prompt is missing")], calls := [] }
        else
          match pyLen p with
          | .error e => .error e
          | .ok n =>
            if n > 2000 then
              .ok { status := 400
                    body := [("error", "Prompt is too long (max 2000 characters for this demo)")]
                    calls := [] }
            else
              .ok (gemini_call svc (full_prompt (pyStr p)))

/-- The route `POST /generate_story` (lines 49-144). -/
def generate_story_api (cfg : ServerConfig) (req : ReqBody)
    (svc : RemoteService) : RouteResult :=
  if !keyTruthy cfg.google_api_key then
    { status := 500
      body := [("error", "Google API key not configured on the server.")]
      calls := [] }
  else if !cfg.model_initialized then
    { status := 500
      body := [("error", String.append
        (String.append "Google Gemini model '" MODEL_NAME)
        "' not initialized. Check server logs.")]
      calls := [] }
  else
    match handler_try req svc with
    | .ok res => res
    | .error e =>
        { status := 500
          body := [("error", String.append
            "An internal server error occurred: " e.strVal)]
          calls := [] }

/-- The route `GET /` (lines 45-47): renders the static landing page,
independent of the server configuration.  Modelled as status 200 with the
name of the rendered template. -/
def index (_cfg : ServerConfig) : Nat × String :=
  (200, "index.html")

/-- Under an initialized configuration (truthy key, model handle present)
and a non-empty string prompt of length at most 2000, the route reduces to
the remote-call section applied to the templated prompt. -/
theorem route_str_prompt (cfg : ServerConfig) (svc : RemoteService) (p : String)
    (hk : keyTruthy cfg.google_api_key = true)
    (hm : cfg.model_initialized = true)
    (hp : p ≠ "") (hl : p.length ≤ 2000) :
    generate_story_api cfg (.json (.obj [("prompt", .str p)])) svc =
      gemini_call svc (full_prompt p) := by
  simp [generate_story_api, handler_try, pyGet, pyTruthy, pyLen, pyStr,
    hk, hm, hp, Nat.not_lt.mpr hl]

/-- **C1.** For every failure raised by the remote call, the route classifies
it by substring inspection of the failure's message and type name in fixed
priority order: an authentication/permission indicator yields status 401 with
a generic authentication-failed message; otherwise a quota/resource-exhaustion
indicator yields 429 with a generic quota-exceeded message; otherwise an
invalid-request indicator yields 400 with a message including the underlying
detail; otherwise status 500 with a message including the underlying detail. -/
theorem generate_story_classifies_remote_failures
    (cfg : ServerConfig) (p : String) (e : PyExn)
    (hk : keyTruthy cfg.google_api_key = true)
    (hm : cfg.model_initialized = true)
    (hp : p ≠ "") (hl : p.length ≤ 2000) :
    (authIndicator e = true →
      generate_story_api cfg (.json (.obj [("prompt", .str p)]))
          (fun _ _ => .raise e) =
        { status := 401
          body := [("error", "An error occurred with the Google AI service: Authentication with Google AI service failed. Check your API key.")]
          calls := [(full_prompt p, generation_config)] }) ∧
    (authIndicator e = false → quotaIndicator e = true →
      generate_story_api cfg (.json (.obj [("prompt", .str p)]))
          (fun _ _ => .raise e) =
        { status := 429
          body := [("error", "An error occurred with the Google AI service: Google AI service quota exceeded. Please check your usage or try again later.")]
          calls := [(full_prompt p, generation_config)] }) ∧
    (authIndicator e = false → quotaIndicator e = false →
        invalidIndicator e = true →
      generate_story_api cfg (.json (.obj [("prompt", .str p)]))
          (fun _ _ => .raise e) =
        { status := 400
          body := [("error", String.append
            "An error occurred with the Google AI service: "
            (String.append "Invalid request to Google AI service: "
              (errorMessageOf e)))]
          calls := [(full_prompt p, generation_config)] }) ∧
    (authIndicator e = false → quotaIndicator e = false →
        invalidIndicator e = false →
      generate_story_api cfg (.json (.obj [("prompt", .str p)]))
          (fun _ _ => .raise e) =
        { status := 500
          body := [("error", String.append
            "An error occurred with the Google AI service: "
            (errorMessageOf e))]
          calls := [(full_prompt p, generation_config)] }) := by
  rw [route_str_prompt cfg (fun _ _ => .raise e) p hk hm hp hl]
  refine ⟨fun h1 => ?_, fun h1 h2 => ?_, fun h1 h2 h3 => ?_,
    fun h1 h2 h3 => ?_⟩
  · simp only [gemini_call, classify_gemini_error, h1, if_true]
    rfl
  · simp only [gemini_call, classify_gemini_error, h1, h2,
      Bool.false_eq_true, if_false, if_true]
    rfl
  · simp only [gemini_call, classify_gemini_error, h1, h2, h3,
      Bool.false_eq_true, if_false, if_true]
  · simp only [gemini_call, classify_gemini_error, h1, h2, h3,
      Bool.false_eq_true, if_false]

/-- The remote-call section always records exactly one invocation: the
templated prompt together with the fixed generation configuration. -/
theorem gemini_call_calls (svc : RemoteService) (fp : String) :
    (gemini_call svc fp).calls = [(fp, generation_config)] := by
  unfold gemini_call
  cases svc fp generation_config with
  | ok r =>
      by_cases hc : r.candidates.isEmpty <;> simp [hc]
  | raise e =>
      rcases h : classify_gemini_error e with ⟨st, em⟩
      simp [h]

/-- Witness for C1 at a concrete authentication failure. -/
theorem generate_story_classifies_remote_failures_witness :
    generate_story_api { google_api_key := some "k", model_initialized := true }
      (.json (.obj [("prompt", .str "hi")]))
      (fun _ _ => .raise { strVal := "API key not valid. Please pass a valid API key."
                           typeName := "<class 'google.api_core.exceptions.InvalidArgument'>"
                           message := none }) =
    { status := 401
      body := [("error", "An error occurred with the Google AI service: Authentication with Google AI service failed. Check your API key.")]
      calls := [(full_prompt "hi", generation_config)] } :=
  (generate_story_classifies_remote_failures
    { google_api_key := some "k", model_initialized := true } "hi"
    { strVal := "API key not valid. Please pass a valid API key."
      typeName := "<class 'google.api_core.exceptions.InvalidArgument'>"
      message := none }
    rfl rfl (by decide) (by decide)).1 (by decide)

/-- **C2.** For every prompt string with length between 1 and 2000
inclusive, the input-length gate passes and the remote service is invoked;
for a missing or empty prompt or one longer than 2000 characters, the route
returns status 400 and the remote service is never called, with a missing
prompt producing exactly the error body `{"error": "Prompt is missing"}`. -/
theorem generate_story_prompt_gate
    (cfg : ServerConfig) (svc : RemoteService) (p : String)
    (hk : keyTruthy cfg.google_api_key = true)
    (hm : cfg.model_initialized = true) :
    (1 ≤ p.length ∧ p.length ≤ 2000 →
      (generate_story_api cfg (.json (.obj [("prompt", .str p)])) svc).calls =
        [(full_prompt p, generation_config)]) ∧
    (generate_story_api cfg (.json (.obj [])) svc =
      { status := 400, body := [("error", "Prompt is missing")], calls := [] }) ∧
    (p = "" ∨ 2000 < p.length →
      (generate_story_api cfg (.json (.obj [("prompt", .str p)])) svc).status = 400 ∧
      (generate_story_api cfg (.json (.obj [("prompt", .str p)])) svc).calls = []) := by
  refine ⟨fun ⟨h1, h2⟩ => ?_, ?_, fun h => ?_⟩
  · have hp : p ≠ "" := by
      intro hemp
      subst hemp
      simp [String.length] at h1
    rw [route_str_prompt cfg svc p hk hm hp h2, gemini_call_calls]
  · simp [generate_story_api, handler_try, pyGet, hk, hm]
  · rcases h with hemp | hlong
    · subst hemp
      simp [generate_story_api, handler_try, pyGet, pyTruthy, hk, hm]
    · have hp : p ≠ "" := by
        intro hemp
        subst hemp
        simp [String.length] at hlong
      simp [generate_story_api, handler_try, pyGet, pyTruthy, pyLen, pyStr,
        hk, hm, hp, hlong]

/-- Witness for C2: a short valid prompt reaches the remote service, and a
body with no prompt key yields exactly the missing-prompt error. -/
theorem generate_story_prompt_gate_witness :
    (generate_story_api { google_api_key := some "k", model_initialized := true }
      (.json (.obj [("prompt", .str "Once")]))
      (fun _ _ => .ok { candidates := ["tale"], block_reason := none })).calls =
        [(full_prompt "Once", generation_config)] ∧
    generate_story_api { google_api_key := some "k", model_initialized := true }
      (.json (.obj []))
      (fun _ _ => .ok { candidates := ["tale"], block_reason := none }) =
      { status := 400, body := [("error", "Prompt is missing")], calls := [] } := by
  have h := generate_story_prompt_gate
    { google_api_key := some "k", model_initialized := true }
    (fun _ _ => .ok { candidates := ["tale"], block_reason := none })
    "Once" rfl rfl
  exact ⟨h.1 (by decide), h.2.1⟩

/-- Appending to a non-empty string yields a non-empty string. -/
theorem strAppend_ne_empty (a b : String) (ha : a ≠ "") :
    String.append a b ≠ "" := by
  cases a with
  | mk da =>
    cases b with
    | mk db =>
      cases da with
      | nil => exact fun _ => absurd rfl ha
      | cons c cs =>
        intro h
        have hd : (c :: (cs ++ db) : List Char) = [] := congrArg String.data h
        exact List.noConfusion hd

/-- **C3.** Whenever the remote-service credential or the client/model handle
was not successfully initialized at startup, every call to
`POST /generate_story` returns status 500 with an explanatory error without
attempting a remote call, while the static-page route still serves the
landing page. -/
theorem generate_story_uninitialized_degrades
    (cfg : ServerConfig) (req : ReqBody) (svc : RemoteService)
    (h : keyTruthy cfg.google_api_key = false ∨ cfg.model_initialized = false) :
    (generate_story_api cfg req svc).status = 500 ∧
    (generate_story_api cfg req svc).calls = [] ∧
    (∃ msg, (generate_story_api cfg req svc).body = [("error", msg)] ∧
      msg ≠ "") ∧
    index cfg = (200, "index.html") := by
  rcases h with h | h
  · have hroute : generate_story_api cfg req svc =
        { status := 500
          body := [("error", "Google API key not configured on the server.")]
          calls := [] } := by
      simp [generate_story_api, h]
    rw [hroute]
    exact ⟨rfl, rfl, ⟨_, rfl, by decide⟩, rfl⟩
  · by_cases hk : keyTruthy cfg.google_api_key
    · have hroute : generate_story_api cfg req svc =
          { status := 500
            body := [("error", String.append
              (String.append "Google Gemini model '" MODEL_NAME)
              "' not initialized. Check server logs.")]
            calls := [] } := by
        simp [generate_story_api, hk, h]
      rw [hroute]
      exact ⟨rfl, rfl, ⟨_, rfl, by decide⟩, rfl⟩
    · have hroute : generate_story_api cfg req svc =
          { status := 500
            body := [("error", "Google API key not configured on the server.")]
            calls := [] } := by
        simp only [Bool.not_eq_true] at hk
        simp [generate_story_api, hk]
      rw [hroute]
      exact ⟨rfl, rfl, ⟨_, rfl, by decide⟩, rfl⟩

/-- Witness for C3 at the concrete configuration with no credential. -/
theorem generate_story_uninitialized_degrades_witness :
    (generate_story_api { google_api_key := none, model_initialized := false }
      (.json (.obj [("prompt", .str "hi")]))
      (fun _ _ => .ok { candidates := ["tale"], block_reason := none })).status
        = 500 ∧
    (generate_story_api { google_api_key := none, model_initialized := false }
      (.json (.obj [("prompt", .str "hi")]))
      (fun _ _ => .ok { candidates := ["tale"], block_reason := none })).calls
        = [] := by
  have h := generate_story_uninitialized_degrades
    { google_api_key := none, model_initialized := false }
    (.json (.obj [("prompt", .str "hi")]))
    (fun _ _ => .ok { candidates := ["tale"], block_reason := none })
    (Or.inl rfl)
  exact ⟨h.1, h.2.1⟩

/-- **C4.** For every remote response containing zero candidates, the route
returns status 400 with a non-empty error string and no story field, where
the error message is derived from the service's block-reason field when
present and is a generic blocked message otherwise. -/
theorem generate_story_no_candidates_blocked
    (cfg : ServerConfig) (p : String) (r : GeminiResponse)
    (hk : keyTruthy cfg.google_api_key = true)
    (hm : cfg.model_initialized = true)
    (hp : p ≠ "") (hl : p.length ≤ 2000)
    (hc : r.candidates = []) :
    (generate_story_api cfg (.json (.obj [("prompt", .str p)]))
      (fun _ _ => .ok r)).status = 400 ∧
    (∃ msg,
      (generate_story_api cfg (.json (.obj [("prompt", .str p)]))
        (fun _ _ => .ok r)).body = [("error", msg)] ∧
      msg ≠ "" ∧
      msg = (match r.block_reason with
        | some br => String.append "Content generation blocked due to: " br
        | none => "Content generation blocked. The prompt might have violated safety guidelines or resulted in no valid output.")) ∧
    (∀ s, ("story", s) ∉
      (generate_story_api cfg (.json (.obj [("prompt", .str p)]))
        (fun _ _ => .ok r)).body) := by
  rw [route_str_prompt cfg (fun _ _ => .ok r) p hk hm hp hl]
  cases hbr : r.block_reason with
  | none =>
      have hres : gemini_call (fun _ _ => .ok r) (full_prompt p) =
          { status := 400
            body := [("error", "Content generation blocked. The prompt might have violated safety guidelines or resulted in no valid output.")]
            calls := [(full_prompt p, generation_config)] } := by
        simp [gemini_call, hc, hbr]
      rw [hres]
      exact ⟨rfl, ⟨_, rfl, by decide, rfl⟩, by simp⟩
  | some br =>
      have hres : gemini_call (fun _ _ => .ok r) (full_prompt p) =
          { status := 400
            body := [("error",
              String.append "Content generation blocked due to: " br)]
            calls := [(full_prompt p, generation_config)] } := by
        simp [gemini_call, hc, hbr]
      rw [hres]
      exact ⟨rfl, ⟨_, rfl,
        strAppend_ne_empty _ br (by decide), rfl⟩, by simp⟩

/-- Witness for C4 at a concrete blocked response with a block reason. -/
theorem generate_story_no_candidates_blocked_witness :
    (generate_story_api { google_api_key := some "k", model_initialized := true }
      (.json (.obj [("prompt", .str "hi")]))
      (fun _ _ => .ok { candidates := [], block_reason := some "SAFETY" })).status
        = 400 := by
  exact (generate_story_no_candidates_blocked
    { google_api_key := some "k", model_initialized := true } "hi"
    { candidates := [], block_reason := some "SAFETY" }
    rfl rfl (by decide) (by decide) rfl).1

/-- **C5.** For every remote response with a candidate whose text trims to
the empty string, the route returns status 200 with the fixed fallback
sentence as the story value. -/
theorem generate_story_empty_candidate_fallback
    (cfg : ServerConfig) (p t : String) (br : Option String)
    (hk : keyTruthy cfg.google_api_key = true)
    (hm : cfg.model_initialized = true)
    (hp : p ≠ "") (hl : p.length ≤ 2000)
    (ht : pyStrip t = "") :
    generate_story_api cfg (.json (.obj [("prompt", .str p)]))
      (fun _ _ => .ok { candidates := [t], block_reason := br }) =
    { status := 200, body := [("story", fallback_story)]
      calls := [(full_prompt p, generation_config)] } := by
  rw [route_str_prompt cfg _ p hk hm hp hl]
  simp [gemini_call, GeminiResponse.text, ht]

/-- Witness for C5 at a concrete all-whitespace candidate. -/
theorem generate_story_empty_candidate_fallback_witness :
    generate_story_api { google_api_key := some "k", model_initialized := true }
      (.json (.obj [("prompt", .str "hi")]))
      (fun _ _ => .ok { candidates := ["  \n "], block_reason := none }) =
    { status := 200, body := [("story", fallback_story)]
      calls := [(full_prompt "hi", generation_config)] } :=
  generate_story_empty_candidate_fallback
    { google_api_key := some "k", model_initialized := true } "hi" "  \n " none
    rfl rfl (by decide) (by decide) (by decide)

/-- **C6.** For every remote response with a candidate whose text is
non-empty after trimming, the route returns status 200 with the
whitespace-trimmed candidate text as the story value. -/
theorem generate_story_trimmed_candidate_success
    (cfg : ServerConfig) (p t : String) (br : Option String)
    (hk : keyTruthy cfg.google_api_key = true)
    (hm : cfg.model_initialized = true)
    (hp : p ≠ "") (hl : p.length ≤ 2000)
    (ht : pyStrip t ≠ "") :
    generate_story_api cfg (.json (.obj [("prompt", .str p)]))
      (fun _ _ => .ok { candidates := [t], block_reason := br }) =
    { status := 200, body := [("story", pyStrip t)]
      calls := [(full_prompt p, generation_config)] } := by
  rw [route_str_prompt cfg _ p hk hm hp hl]
  simp [gemini_call, GeminiResponse.text, ht]

/-- Witness for C6: the spec's end-to-end scenario, `{"prompt": "Once upon a
time"}` against a stub service returning one candidate with text
`" A hero arose. "`, yields 200 with story `"A hero arose."`. -/
theorem generate_story_trimmed_candidate_success_witness :
    generate_story_api { google_api_key := some "k", model_initialized := true }
      (.json (.obj [("prompt", .str "Once upon a time")]))
      (fun _ _ => .ok { candidates := [" A hero arose. "], block_reason := none }) =
    { status := 200, body := [("story", "A hero arose.")]
      calls := [(full_prompt "Once upon a time", generation_config)] } :=
  generate_story_trimmed_candidate_success
    { google_api_key := some "k", model_initialized := true }
    "Once upon a time" " A hero arose. " none
    rfl rfl (by decide) (by decide) (by decide)

/-- The part of the instructional template before the quoted user text. -/
def tmpl_before : String :=
  "You are a creative storyteller.\nUser's story starter: "

/-- The part of the instructional template after the quoted user text. -/
def tmpl_after : String :=
  "\nContinue this story, making it engaging and imaginative. Keep the continuation concise, around 150-200 words.\nStory continuation:"

/-- **C7.** For every request passing validation, the remote service is
invoked with a prompt that embeds the user's text verbatim inside a quoted
section of the fixed instructional template, and with the fixed sampling
configuration: maximum output length 300 tokens, temperature 0.8, top-p 0.95,
top-k 40, and a single candidate. -/
theorem generate_story_remote_invocation_fixed
    (cfg : ServerConfig) (svc : RemoteService) (p : String)
    (hk : keyTruthy cfg.google_api_key = true)
    (hm : cfg.model_initialized = true)
    (hp : p ≠ "") (hl : p.length ≤ 2000) :
    (generate_story_api cfg (.json (.obj [("prompt", .str p)])) svc).calls =
      [(String.append tmpl_before
          (String.append "\"" (String.append p (String.append "\"" tmpl_after))),
        generation_config)] ∧
    generation_config.max_output_tokens = 300 ∧
    generation_config.temperature = 0.8 ∧
    generation_config.top_p = 0.95 ∧
    generation_config.top_k = 40 ∧
    generation_config.candidate_count = 1 := by
  refine ⟨?_, rfl, rfl, rfl, rfl, rfl⟩
  rw [route_str_prompt cfg svc p hk hm hp hl, gemini_call_calls]
  rfl

/-- Witness for C7 at a concrete prompt. -/
theorem generate_story_remote_invocation_fixed_witness :
    (generate_story_api { google_api_key := some "k", model_initialized := true }
      (.json (.obj [("prompt", .str "hi")]))
      (fun _ _ => .ok { candidates := ["tale"], block_reason := none })).calls =
      [(String.append tmpl_before
          (String.append "\"" (String.append "hi" (String.append "\"" tmpl_after))),
        generation_config)] :=
  (generate_story_remote_invocation_fixed
    { google_api_key := some "k", model_initialized := true }
    (fun _ _ => .ok { candidates := ["tale"], block_reason := none })
    "hi" rfl rfl (by decide) (by decide)).1

/-- **C8.** Every exception raised inside the action-route handler that is
not classified by the remote-failure rules is caught and turned into a
status-500 JSON response built from the fixed internal-error template; the
exception never propagates (the route is total) and the body carries only the
exception's message, no stack trace. -/
theorem generate_story_unhandled_exception_500
    (cfg : ServerConfig) (req : ReqBody) (svc : RemoteService) (e : PyExn)
    (hk : keyTruthy cfg.google_api_key = true)
    (hm : cfg.model_initialized = true)
    (he : handler_try req svc = .error e) :
    generate_story_api cfg req svc =
      { status := 500
        body := [("error",
          String.append "An internal server error occurred: " e.strVal)]
        calls := [] } := by
  simp [generate_story_api, hk, hm, he]

/-- Witness for C8: a JSON `null` body raises `AttributeError` inside the
handler and is reported as a 500 internal error. -/
theorem generate_story_unhandled_exception_500_witness :
    generate_story_api { google_api_key := some "k", model_initialized := true }
      (.json .null)
      (fun _ _ => .ok { candidates := ["tale"], block_reason := none }) =
      { status := 500
        body := [("error", "An internal server error occurred: 'NoneType' object has no attribute 'get'")]
        calls := [] } := by
  have h := generate_story_unhandled_exception_500
    { google_api_key := some "k", model_initialized := true }
    (.json .null)
    (fun _ _ => .ok { candidates := ["tale"], block_reason := none })
    (attrErrorGet .null) rfl rfl rfl
  exact h

/-- **C10.** For every request whose body is not a JSON object (not JSON at
all, or valid JSON that is an array, number, string, boolean, or null),
`POST /generate_story` with an initialized client returns status 500 from the
catch-all handler, because body parsing or the key lookup raises before the
prompt validation runs. -/
theorem generate_story_non_object_body_500
    (cfg : ServerConfig) (svc : RemoteService)
    (hk : keyTruthy cfg.google_api_key = true)
    (hm : cfg.model_initialized = true) :
    (∀ e : PyExn, generate_story_api cfg (.malformed e) svc =
      { status := 500
        body := [("error",
          String.append "An internal server error occurred: " e.strVal)]
        calls := [] }) ∧
    (∀ j : PyJson, (∀ fields, j ≠ .obj fields) →
      generate_story_api cfg (.json j) svc =
      { status := 500
        body := [("error",
          String.append "An internal server error occurred: "
            (attrErrorGet j).strVal)]
        calls := [] }) := by
  constructor
  · intro e
    simp [generate_story_api, handler_try, hk, hm]
  · intro j hj
    have hg : pyGet j "prompt" = .error (attrErrorGet j) := by
      cases j <;> first | rfl | (exact absurd rfl (hj _))
    simp [generate_story_api, handler_try, hg, hk, hm]

/-- Witness for C10: a JSON array body yields the 500 internal error. -/
theorem generate_story_non_object_body_500_witness :
    generate_story_api { google_api_key := some "k", model_initialized := true }
      (.json (.arr []))
      (fun _ _ => .ok { candidates := ["tale"], block_reason := none }) =
      { status := 500
        body := [("error", "An internal server error occurred: 'list' object has no attribute 'get'")]
        calls := [] } := by
  have h := (generate_story_non_object_body_500
    { google_api_key := some "k", model_initialized := true }
    (fun _ _ => .ok { candidates := ["tale"], block_reason := none })
    rfl rfl).2 (.arr []) (fun _ hcontra => PyJson.noConfusion hcontra)
  exact h

/-- The response-shape invariant of the route: either status 200 with a
single story string, or a non-200 status among 400/401/429/500 with a single
error string — never both keys and never any other key. -/
def WellFormedResult (res : RouteResult) : Prop :=
  (res.status = 200 ∧ ∃ s, res.body = [("story", s)]) ∨
  (res.status ≠ 200 ∧
    (res.status = 400 ∨ res.status = 401 ∨ res.status = 429 ∨
      res.status = 500) ∧
    ∃ s, res.body = [("error", s)])

/-- An error result with one of the four failure statuses is well-formed. -/
theorem wf_error (st : Nat) (msg : String)
    (calls : List (String × GenerationConfig))
    (h : st = 400 ∨ st = 401 ∨ st = 429 ∨ st = 500) :
    WellFormedResult { status := st, body := [("error", msg)], calls := calls } := by
  right
  refine ⟨?_, h, ⟨msg, rfl⟩⟩
  show st ≠ 200
  rcases h with h | h | h | h <;> omega

/-- A 200 result carrying a story string is well-formed. -/
theorem wf_story (msg : String) (calls : List (String × GenerationConfig)) :
    WellFormedResult { status := 200, body := [("story", msg)], calls := calls } :=
  Or.inl ⟨rfl, msg, rfl⟩

/-- The classification of a remote failure always lands in
\x7b401, 429, 400, 500\x7d. -/
theorem classify_status_cases (e : PyExn) :
    (classify_gemini_error e).1 = 401 ∨ (classify_gemini_error e).1 = 429 ∨
    (classify_gemini_error e).1 = 400 ∨ (classify_gemini_error e).1 = 500 := by
  unfold classify_gemini_error
  split_ifs <;> simp

/-- The remote-call section always produces a well-formed result. -/
theorem gemini_call_wf (svc : RemoteService) (fp : String) :
    WellFormedResult (gemini_call svc fp) := by
  unfold gemini_call
  split
  next ex hsvc =>
    split
    next st em heq =>
      refine wf_error st _ _ ?_
      have hc := classify_status_cases ex
      rw [heq] at hc
      simp only [Prod.fst] at hc
      tauto
  next r =>
    split
    next hc => exact wf_error 400 _ _ (Or.inl rfl)
    next hc => exact wf_story _ _

/-- Every successful value of the handler body is a well-formed result. -/
theorem handler_try_wf (req : ReqBody) (svc : RemoteService) (r : RouteResult)
    (h : handler_try req svc = .ok r) : WellFormedResult r := by
  cases req with
  | malformed e => simp [handler_try] at h
  | json data =>
    cases hg : pyGet data "prompt" with
    | error e =>
        have heval : handler_try (.json data) svc = .error e := by
          simp [handler_try, hg]
        rw [heval] at h
        exact absurd h (by simp)
    | ok up =>
      cases up with
      | none =>
          have heval : handler_try (.json data) svc =
              .ok { status := 400, body := [("error", "Prompt is missing")]
                    calls := [] } := by
            simp [handler_try, hg]
          rw [heval] at h
          have hr := Except.ok.inj h
          subst hr
          exact wf_error 400 _ _ (Or.inl rfl)
      | some p =>
          by_cases ht : pyTruthy p = true
          · cases hn : pyLen p with
            | error e' =>
                have heval : handler_try (.json data) svc = .error e' := by
                  simp [handler_try, hg, ht, hn]
                rw [heval] at h
                exact absurd h (by simp)
            | ok n =>
                by_cases hlen : n > 2000
                · have heval : handler_try (.json data) svc =
                      .ok { status := 400
                            body := [("error", "Prompt is too long (max 2000 characters for this demo)")]
                            calls := [] } := by
                    simp [handler_try, hg, ht, hn, hlen]
                  rw [heval] at h
                  have hr := Except.ok.inj h
                  subst hr
                  exact wf_error 400 _ _ (Or.inl rfl)
                · have heval : handler_try (.json data) svc =
                      .ok (gemini_call svc (full_prompt (pyStr p))) := by
                    simp [handler_try, hg, ht, hn, hlen]
                  rw [heval] at h
                  have hr := Except.ok.inj h
                  subst hr
                  exact gemini_call_wf _ _
          · simp only [Bool.not_eq_true] at ht
            have heval : handler_try (.json data) svc =
                .ok { status := 400, body := [("error", "Prompt is missing")]
                      calls := [] } := by
              simp [handler_try, hg, ht]
            rw [heval] at h
            have hr := Except.ok.inj h
            subst hr
            exact wf_error 400 _ _ (Or.inl rfl)

/-- **C9.** For every possible outcome of `POST /generate_story`, the
response is a JSON object: on success it has status 200 and a single `story`
string; on every failure it has a non-200 status in \x7b400, 401, 429, 500\x7d
and a single `error` string, never both keys and never any other key. -/
theorem generate_story_response_shape
    (cfg : ServerConfig) (req : ReqBody) (svc : RemoteService) :
    WellFormedResult (generate_story_api cfg req svc) := by
  unfold generate_story_api
  by_cases hk : keyTruthy cfg.google_api_key = true
  · by_cases hm : cfg.model_initialized = true
    · simp only [hk, hm, Bool.not_true, Bool.false_eq_true, if_false]
      cases hh : handler_try req svc with
      | error e =>
          exact wf_error 500 _ _ (Or.inr (Or.inr (Or.inr rfl)))
      | ok r => exact handler_try_wf req svc r hh
    · simp only [Bool.not_eq_true] at hm
      simp only [hk, hm, Bool.not_true, Bool.not_false, Bool.false_eq_true,
        if_false, if_true]
      exact wf_error 500 _ _ (Or.inr (Or.inr (Or.inr rfl)))
  · simp only [Bool.not_eq_true] at hk
    simp only [hk, Bool.not_false, if_true]
    exact wf_error 500 _ _ (Or.inr (Or.inr (Or.inr rfl)))
